import Mathlib

set_option autoImplicit false

namespace SdssBrain

/-! Shallow embedding of the sdss_brain multi-modal access (MMA) core:
`sdss_brain/mixins/mma.py` (MMAMixIn), `sdss_brain/api/manager.py`
(ApiProfile / ApiManager) and `sdss_brain/mixins/access.py` (AccessMixIn).
Machine-level collaborators (the filesystem, sdss_access path construction,
the download transfer) are passed in as an explicit environment, and the
observable side effects of resolution are recorded as an effect trace. -/

/-- Embeds the `mode` attribute of `MMAMixIn`: one of `auto`, `local`, `remote`
(the string membership is asserted in `__init__`, mma.py line 97; the
inductive type makes that assertion total here). -/
inductive Mode
  | auto
  | local_
  | remote
deriving DecidableEq, Repr

/-- Embeds the `data_origin` attribute values: `file`, `db` or `api`
(mma.py line 118). -/
inductive Origin
  | file
  | db
  | api
deriving DecidableEq, Repr

/-- Embeds `DatabaseHandler` from `sdss_brain/helpers/database.py` as seen by
the MMA: only its `connected` flag is ever inspected (mma.py line 151).
`DatabaseHandler` defines no truthiness hook, so `self.db` is truthy iff the
handler is not None, modelled by wrapping in `Option`. -/
structure DatabaseHandler where
  connected : Bool
deriving DecidableEq, Repr

/-- Errors raised during MMA resolution: `BrainError` (with its message) from
`sdss_brain/exceptions.py`, and `AssertionError` for the bare `assert`
statements in `__init__`. -/
inductive MMAErr
  | brainError (msg : String)
  | assertionError (msg : String)
deriving DecidableEq, Repr

/-- Observable machine effects performed during resolution: a disk existence
check (`Path.exists` / `os.path.exists`), a full-path construction via
`self.get_full_path()`, and a network download via `self.download()`. -/
inductive Effect
  | diskCheck (path : String)
  | pathLookup
  | download
deriving DecidableEq, Repr

/-- Embeds the instance state of `MMAMixIn` relevant to resolution
(mma.py lines 82-92): `filename`, `objectid`, `data_origin`, `mode`,
`_db`, `_ignore_db`, `_forcedownload`, `_release`. A `none` field models the
Python attribute being None. -/
structure MMAState where
  filename : Option String
  objectid : Option String
  data_origin : Option Origin
  mode : Mode
  db : Option DatabaseHandler
  ignore_db : Bool
  forcedownload : Bool
  _release : String
deriving DecidableEq, Repr

/-- Environment of external collaborators consumed by `_do_local`: the disk
(`fileExists`), the result of the abstract `get_full_path()` (none models a
falsy/None full path), and the filename that `download()` binds on success. -/
structure MMAEnv where
  fileExists : String → Bool
  fullPath : Option String
  downloadFilename : String

/-- Embeds `MMAMixIn._do_local` (mma.py lines 136-170), returning the
updated state or the raised `BrainError`, paired with the trace of machine
effects performed.  The filename branch checks the disk; the objectid branch
first short-circuits on a connected, non-ignored database, then constructs
the full path, checks the disk, and optionally downloads.  In the download
branch only `data_origin` is set (`mode` is left untouched, as in the
source), and `download()` rebinds `filename` (access.py line 286). -/
def do_local (env : MMAEnv) (st : MMAState) : Except MMAErr MMAState × List Effect :=
  match st.filename with
  | some f =>
    if env.fileExists f then
      (Except.ok { st with mode := Mode.local_, data_origin := some Origin.file },
       [Effect.diskCheck f])
    else
      (Except.error (MMAErr.brainError ("input file " ++ f ++ " not found")),
       [Effect.diskCheck f])
  | none =>
    match st.objectid with
    | some _ =>
      if (st.db.map (fun d => d.connected)).getD false && !st.ignore_db then
        (Except.ok { st with mode := Mode.local_, data_origin := some Origin.db }, [])
      else
        match env.fullPath with
        | some fp =>
          if env.fileExists fp then
            (Except.ok { st with mode := Mode.local_, filename := some fp,
                                 data_origin := some Origin.file },
             [Effect.pathLookup, Effect.diskCheck fp])
          else if st.forcedownload then
            (Except.ok { st with filename := some env.downloadFilename,
                                 data_origin := some Origin.file },
             [Effect.pathLookup, Effect.diskCheck fp, Effect.download])
          else
            (Except.error (MMAErr.brainError
               "failed to retrieve data using input parameters."),
             [Effect.pathLookup, Effect.diskCheck fp])
        | none =>
          if st.forcedownload then
            (Except.ok { st with filename := some env.downloadFilename,
                                 data_origin := some Origin.file },
             [Effect.pathLookup, Effect.download])
          else
            (Except.error (MMAErr.brainError
               "failed to retrieve data using input parameters."),
             [Effect.pathLookup])
    | none => (Except.ok st, [])

/-- Embeds `MMAMixIn._do_remote` (mma.py lines 172-179): a set filename is
illegal, otherwise the origin becomes `api` unconditionally.  No machine
effect (no network or disk access) is performed during remote resolution. -/
def do_remote (st : MMAState) : Except MMAErr MMAState :=
  match st.filename with
  | some _ => Except.error (MMAErr.brainError "filename not allowed in remote mode.")
  | none => Except.ok { st with mode := Mode.remote, data_origin := some Origin.api }

/-- Embeds the input-consistency tail of `MMAMixIn._determine_inputs`
(mma.py lines 226-237): when a filename is set, `objectid` is cleared and a
remote mode raises `BrainError`.  The subsequent
`assert self.filename.exists` in the source references the bound method
without calling it and is therefore always truthy, so it is not a disk
check and has no effect here. -/
def checkInputs (st : MMAState) : Except MMAErr MMAState :=
  match st.filename with
  | some _ =>
    if st.mode = Mode.remote then
      Except.error (MMAErr.brainError "filename not allowed in remote mode.")
    else
      Except.ok { st with objectid := none }
  | none => Except.ok st

/-- Embeds the mode dispatch of `MMAMixIn.__init__` (mma.py lines 100-115):
`local` runs `_do_local`, `remote` runs `_do_remote`, and `auto` runs
`_do_local`, catching `BrainError` exactly once; on that error the handler
re-raises when `self.filename` is set (unchanged, since every failing path
of `_do_local` leaves the state unmutated) and otherwise falls back to a
single `_do_remote` call. -/
def modeDispatch (env : MMAEnv) (st : MMAState) : Except MMAErr MMAState × List Effect :=
  match st.mode with
  | Mode.local_ => do_local env st
  | Mode.remote => (do_remote st, [])
  | Mode.auto =>
    match do_local env st with
    | (Except.ok st', effs) => (Except.ok st', effs)
    | (Except.error e, effs) =>
      match st.filename with
      | some _ => (Except.error e, effs)
      | none => (do_remote st, effs)

/-- Embeds the resolution portion of `MMAMixIn.__init__` (mma.py
lines 94-118): the no-inputs `BrainError` from `_determine_inputs`
(line 211), the input-consistency check, the mode dispatch, and the final
sanity assertion that `data_origin` is one of `file`, `db`, `api`
(line 118), which for the `Origin` type is exactly `isSome`. -/
def mmaInit (env : MMAEnv) (st : MMAState) : Except MMAErr MMAState × List Effect :=
  if st.filename.isNone && st.objectid.isNone then
    (Except.error (MMAErr.brainError
       "no inputs defined. filename and objectid are both None"), [])
  else
    match checkInputs st with
    | Except.error e => (Except.error e, [])
    | Except.ok st1 =>
      match modeDispatch env st1 with
      | (Except.error e, effs) => (Except.error e, effs)
      | (Except.ok st2, effs) =>
        if st2.data_origin.isSome then
          (Except.ok st2, effs)
        else
          (Except.error (MMAErr.assertionError "data_origin is not properly set."), effs)

/-- Embeds the `release` property setter of `MMAMixIn` (mma.py
lines 126-129): every assignment attempt raises `BrainError` before any
mutation. -/
def setRelease (st : MMAState) (value : String) : Except MMAErr MMAState :=
  Except.error (MMAErr.brainError
    "the release cannot be changed once the object has been instantiated.")

/-- Python attribute-assignment semantics around the raising setter: the
exception propagates and the object is left exactly as it was. -/
def trySetRelease (st : MMAState) (value : String) : MMAState :=
  match setRelease st value with
  | Except.ok st' => st'
  | Except.error _ => st

/-- Embeds the `release` property getter of `MMAMixIn` (mma.py
lines 120-124): returns the stored `_release`. -/
def getRelease (st : MMAState) : String :=
  st._release

/-! Concrete inputs used by witnesses and counterexamples. -/

/-- Environment with an empty disk, a constructible full path and a
download target. -/
def wEnvNoFile : MMAEnv :=
  { fileExists := fun _ => false, fullPath := some "/sas/toy.fits",
    downloadFilename := "/sas/dl.fits" }

/-- Environment whose disk holds exactly the constructible full path. -/
def wEnvHasFile : MMAEnv :=
  { fileExists := fun p => p == "/sas/toy.fits", fullPath := some "/sas/toy.fits",
    downloadFilename := "/sas/dl.fits" }

/-- Auto-mode state with an identifier input only. -/
def wAutoObj : MMAState :=
  { filename := none, objectid := some "A", data_origin := none, mode := Mode.auto,
    db := none, ignore_db := false, forcedownload := false, _release := "DR16" }

/-- Auto-mode state with a filename input only. -/
def wAutoFile : MMAState :=
  { filename := some "/missing.fits", objectid := none, data_origin := none,
    mode := Mode.auto, db := none, ignore_db := false, forcedownload := false,
    _release := "DR16" }

/-- Local-mode state with an identifier input and a connected database. -/
def wLocalDbObj : MMAState :=
  { filename := none, objectid := some "A", data_origin := none, mode := Mode.local_,
    db := some { connected := true }, ignore_db := false, forcedownload := false,
    _release := "DR16" }

/-- Local-mode state with an identifier input and no database. -/
def wLocalObj : MMAState :=
  { filename := none, objectid := some "A", data_origin := none, mode := Mode.local_,
    db := none, ignore_db := false, forcedownload := false, _release := "DR16" }

/-- Remote-mode state with a filename input. -/
def wRemoteFile : MMAState :=
  { filename := some "/sas/toy.fits", objectid := none, data_origin := none,
    mode := Mode.remote, db := none, ignore_db := false, forcedownload := false,
    _release := "DR16" }

/-- Remote-mode state with an identifier input only. -/
def wRemoteObj : MMAState :=
  { filename := none, objectid := some "A", data_origin := none, mode := Mode.remote,
    db := none, ignore_db := false, forcedownload := false, _release := "DR16" }

/-- C1: in auto mode, resolution first attempts local resolution; if
`_do_local` raises and the input has a filename, that very error is
re-raised with no remote fallback, while if the input was an identifier
(no filename), resolution is exactly one `_do_remote` call, which succeeds
with origin `api` (RemoteApi); so the fallback happens at most once. -/
theorem auto_local_first_single_remote_fallback (env : MMAEnv) (st : MMAState)
    (hm : st.mode = Mode.auto) :
    (∀ st' effs, do_local env st = (Except.ok st', effs) →
        modeDispatch env st = (Except.ok st', effs)) ∧
    (∀ e effs, do_local env st = (Except.error e, effs) → st.filename.isSome →
        modeDispatch env st = (Except.error e, effs)) ∧
    (∀ e effs, do_local env st = (Except.error e, effs) → st.filename = none →
        modeDispatch env st = (do_remote st, effs) ∧
        do_remote st =
          Except.ok { st with mode := Mode.remote, data_origin := some Origin.api }) := by
  refine ⟨?_, ?_, ?_⟩
  · intro st' effs h
    simp [modeDispatch, hm, h]
  · intro e effs h hf
    obtain ⟨f, hf'⟩ := Option.isSome_iff_exists.mp hf
    simp [modeDispatch, hm, h, hf']
  · intro e effs h hf
    refine ⟨by simp [modeDispatch, hm, h, hf], by simp [do_remote, hf]⟩

/-- Witness for C1 at concrete inputs: an identifier input falls back to a
single successful remote resolution; a filename input re-raises the local
error with no fallback. -/
theorem auto_local_first_single_remote_fallback_witness :
    (modeDispatch wEnvNoFile wAutoObj =
      (do_remote wAutoObj, [Effect.pathLookup, Effect.diskCheck "/sas/toy.fits"]) ∧
      do_remote wAutoObj =
        Except.ok { wAutoObj with mode := Mode.remote, data_origin := some Origin.api }) ∧
    modeDispatch wEnvNoFile wAutoFile =
      (Except.error (MMAErr.brainError "input file /missing.fits not found"),
       [Effect.diskCheck "/missing.fits"]) :=
  ⟨(auto_local_first_single_remote_fallback wEnvNoFile wAutoObj rfl).2.2
      (MMAErr.brainError "failed to retrieve data using input parameters.")
      [Effect.pathLookup, Effect.diskCheck "/sas/toy.fits"] rfl rfl,
   (auto_local_first_single_remote_fallback wEnvNoFile wAutoFile rfl).2.1
      (MMAErr.brainError "input file /missing.fits not found")
      [Effect.diskCheck "/missing.fits"] rfl rfl⟩

/-- C2: with mode `local`, an identifier set (no filename) and a database
handle that is present, connected and not ignored, construction resolves the
origin to `db` (LocalDb) with an empty effect trace: no disk existence check
and no full-path construction is performed. -/
theorem local_mode_db_priority (env : MMAEnv) (st : MMAState)
    (hm : st.mode = Mode.local_) (hf : st.filename = none) (ho : st.objectid.isSome)
    (db : DatabaseHandler) (hdb : st.db = some db) (hc : db.connected = true)
    (hi : st.ignore_db = false) :
    mmaInit env st =
      (Except.ok { st with mode := Mode.local_, data_origin := some Origin.db }, []) := by
  obtain ⟨o, ho'⟩ := Option.isSome_iff_exists.mp ho
  simp [mmaInit, checkInputs, modeDispatch, do_local, hm, hf, ho', hdb, hc, hi]

/-- Witness for C2 at a concrete input. -/
theorem local_mode_db_priority_witness :
    mmaInit wEnvHasFile wLocalDbObj =
      (Except.ok { wLocalDbObj with mode := Mode.local_, data_origin := some Origin.db },
       []) :=
  local_mode_db_priority wEnvHasFile wLocalDbObj rfl rfl rfl
    { connected := true } rfl rfl rfl

/-- C3: with mode `remote`, a filename input makes construction raise
`BrainError` (the InputError of the spec) with an empty effect trace — in
particular before any network access — while an identifier-only input
resolves the origin to `api` (RemoteApi) unconditionally, again with an
empty effect trace, so no existence or reachability check is performed. -/
theorem remote_mode_resolution (env : MMAEnv) (st : MMAState)
    (hm : st.mode = Mode.remote) :
    (st.filename.isSome →
      mmaInit env st =
        (Except.error (MMAErr.brainError "filename not allowed in remote mode."), [])) ∧
    (st.filename = none → st.objectid.isSome →
      mmaInit env st =
        (Except.ok { st with mode := Mode.remote, data_origin := some Origin.api },
         [])) := by
  constructor
  · intro hf
    obtain ⟨f, hf'⟩ := Option.isSome_iff_exists.mp hf
    simp [mmaInit, checkInputs, hf', hm]
  · intro hf ho
    obtain ⟨o, ho'⟩ := Option.isSome_iff_exists.mp ho
    simp [mmaInit, checkInputs, modeDispatch, do_remote, hm, hf, ho']

/-- Witness for C3 at concrete inputs: both the filename rejection and the
unconditional identifier resolution. -/
theorem remote_mode_resolution_witness :
    mmaInit wEnvHasFile wRemoteFile =
      (Except.error (MMAErr.brainError "filename not allowed in remote mode."), []) ∧
    mmaInit wEnvHasFile wRemoteObj =
      (Except.ok { wRemoteObj with mode := Mode.remote, data_origin := some Origin.api },
       []) :=
  ⟨(remote_mode_resolution wEnvHasFile wRemoteFile rfl).1 rfl,
   (remote_mode_resolution wEnvHasFile wRemoteObj rfl).2 rfl rfl⟩

/-- On success `_do_local` never clears `objectid`, and either binds
`filename` to some path or leaves it as it was. -/
lemma do_local_ok_fields (env : MMAEnv) (st st' : MMAState) (effs : List Effect)
    (h : do_local env st = (Except.ok st', effs)) :
    st'.objectid = st.objectid ∧ (st'.filename.isSome ∨ st'.filename = st.filename) := by
  unfold do_local at h
  repeat' split at h
  all_goals simp only [Prod.mk.injEq, Except.ok.injEq] at h
  all_goals
    first
      | exact absurd h.1 (by simp)
      | (obtain ⟨rfl, rfl⟩ := h; simp_all)

/-- On success `_do_remote` leaves `filename` and `objectid` untouched. -/
lemma do_remote_ok_fields (st st' : MMAState) (h : do_remote st = Except.ok st') :
    st'.filename = st.filename ∧ st'.objectid = st.objectid := by
  unfold do_remote at h
  split at h
  · simp at h
  · cases h
    exact ⟨rfl, rfl⟩

/-- On success the mode dispatch never clears `objectid` and either binds
`filename` or leaves it as it was. -/
lemma modeDispatch_ok_fields (env : MMAEnv) (st st' : MMAState) (effs : List Effect)
    (h : modeDispatch env st = (Except.ok st', effs)) :
    st'.objectid = st.objectid ∧ (st'.filename.isSome ∨ st'.filename = st.filename) := by
  unfold modeDispatch at h
  split at h
  · exact do_local_ok_fields env st st' effs h
  · have h1 : do_remote st = Except.ok st' := by
      have := congrArg Prod.fst h
      simpa using this
    obtain ⟨hf, ho⟩ := do_remote_ok_fields st st' h1
    exact ⟨ho, Or.inr hf⟩
  · split at h
    · next st2 effs2 heq =>
      exact do_local_ok_fields env st st' effs (heq.trans h)
    · split at h
      · simp at h
      · next hfil =>
        have h1 : do_remote st = Except.ok st' := by
          have := congrArg Prod.fst h
          simpa using this
        obtain ⟨hf, ho⟩ := do_remote_ok_fields st st' h1
        exact ⟨ho, Or.inr hf⟩

/-- On success the `_determine_inputs` consistency check preserves
`filename` and either preserves `objectid` or has a filename set. -/
lemma checkInputs_ok_fields (st st1 : MMAState) (h : checkInputs st = Except.ok st1) :
    st1.filename = st.filename ∧ (st1.objectid = st.objectid ∨ st1.filename.isSome) := by
  unfold checkInputs at h
  split at h
  · split at h
    · simp at h
    · cases h
      simp_all
  · cases h
    exact ⟨rfl, Or.inl rfl⟩

/-- C4 (counterexample): with mode `local`, no database, identifier `A` and
the computed full path existing on disk, construction succeeds with origin
`file` (LocalFile) but the identifier is NOT cleared: both `filename` and
`objectid` are non-empty afterward, and no error of any kind is raised.
This refutes the claim that exactly one of the two is non-empty after every
successful construction. -/
theorem post_condition_counterexample :
    ∃ st', mmaInit wEnvHasFile wLocalObj =
        (Except.ok st', [Effect.pathLookup, Effect.diskCheck "/sas/toy.fits"]) ∧
      st'.data_origin = some Origin.file ∧ st'.filename = some "/sas/toy.fits" ∧
      st'.objectid = some "A" :=
  ⟨_, rfl, rfl, rfl, rfl⟩

/-- C4 (amended): after every successful construction the origin is exactly
one of the three terminal states `file`, `db`, `api` (this is what the final
sanity assertion enforces), and at least one of `filename`, `objectid` is
non-empty; resolving an identifier to a local file binds `filename` but
retains the identifier, so both may be non-empty simultaneously. -/
theorem construction_post_condition (env : MMAEnv) (st st' : MMAState)
    (effs : List Effect) (h : mmaInit env st = (Except.ok st', effs)) :
    (st'.data_origin = some Origin.file ∨ st'.data_origin = some Origin.db ∨
        st'.data_origin = some Origin.api) ∧
    (st'.filename.isSome ∨ st'.objectid.isSome) := by
  unfold mmaInit at h
  split at h
  · simp at h
  · next hboth =>
    split at h
    · simp at h
    · next st1 hchk =>
      split at h
      · simp at h
      · next st2 effs2 hdis =>
        split at h
        · next hsome =>
          injection h with h1 h2
          injection h1 with h1
          replace h1 := h1.symm
          subst h1
          constructor
          · obtain ⟨o, ho⟩ := Option.isSome_iff_exists.mp hsome
            cases o <;> simp [ho]
          · have hst : st.filename.isSome ∨ st.objectid.isSome := by
              cases hf : st.filename with
              | some f => exact Or.inl (by simp [hf])
              | none =>
                cases ho : st.objectid with
                | some o => exact Or.inr (by simp [ho])
                | none => exact absurd (by simp [hf, ho]) hboth
            obtain ⟨hcf, hco⟩ := checkInputs_ok_fields st st1 hchk
            have hst1 : st1.filename.isSome ∨ st1.objectid.isSome := by
              rcases hst with hf | ho
              · exact Or.inl (hcf ▸ hf)
              · rcases hco with hoo | hfs
                · exact Or.inr (hoo ▸ ho)
                · exact Or.inl hfs
            obtain ⟨hdo, hdf⟩ := modeDispatch_ok_fields env st1 st' effs2 hdis
            rcases hdf with hfs | hfe
            · exact Or.inl hfs
            · rcases hst1 with hf | ho
              · exact Or.inl (hfe ▸ hf)
              · exact Or.inr (hdo ▸ ho)
        · simp at h

/-- The state produced by the witness construction for the amended C4. -/
def wLocalDbResolved : MMAState :=
  { wLocalDbObj with mode := Mode.local_, data_origin := some Origin.db }

/-- Witness for the amended C4 at a concrete successful construction. -/
theorem construction_post_condition_witness :
    (wLocalDbResolved.data_origin = some Origin.file ∨
      wLocalDbResolved.data_origin = some Origin.db ∨
      wLocalDbResolved.data_origin = some Origin.api) ∧
    (wLocalDbResolved.filename.isSome ∨ wLocalDbResolved.objectid.isSome) :=
  construction_post_condition wEnvHasFile wLocalDbObj wLocalDbResolved [] rfl

/-- C10: the release of an instance is immutable after construction: every
attempt to assign the `release` property raises `BrainError`, the object is
left unchanged, and the observed release is therefore the one stored at
construction for the instance's whole lifetime. -/
theorem release_immutable (st : MMAState) (v : String) :
    setRelease st v = Except.error (MMAErr.brainError
      "the release cannot be changed once the object has been instantiated.") ∧
    trySetRelease st v = st ∧ getRelease (trySetRelease st v) = getRelease st :=
  ⟨rfl, rfl, rfl⟩

/-! Embedding of the url machinery of `sdss_brain/api/manager.py`.  Urls are
modelled as character lists.  Only the scheme, netloc and path components
are modelled: the params, query and fragment slots are always empty strings
in this code and are carried around unchanged. -/

/-- Scheme, netloc and path components of a parsed url. -/
structure UrlParts where
  scheme : List Char
  netloc : List Char
  path : List Char
deriving DecidableEq, Repr

/-- Path normalisation performed by `urlunparse`: a nonempty path that does
not already start with a slash gains a leading slash when joined after a
netloc. -/
def normPath (p : List Char) : List Char :=
  if p = [] ∨ p.head? = some '/' then p else '/' :: p

/-- Embeds `urllib.parse.urlparse` restricted to the url shapes this code
produces: a `scheme://netloc/path` string splits into its three components
(scheme up to the first colon, netloc up to the next slash, path the rest);
a string without the scheme separator parses as a bare path with empty
scheme and netloc. -/
def urlparseC (s : List Char) : UrlParts :=
  if (s.dropWhile (fun c => c ≠ ':')).take 3 = [':', '/', '/'] then
    { scheme := s.takeWhile (fun c => c ≠ ':'),
      netloc := ((s.dropWhile (fun c => c ≠ ':')).drop 3).takeWhile (fun c => c ≠ '/'),
      path := ((s.dropWhile (fun c => c ≠ ':')).drop 3).dropWhile (fun c => c ≠ '/') }
  else
    { scheme := [], netloc := [], path := s }

/-- Embeds `urllib.parse.urlunparse` applied to
`(scheme, netloc, path, '', '', '')`: joins the components, inserting the
slash between the netloc and a relative path. -/
def urlunparseC (u : UrlParts) : List Char :=
  u.scheme ++ ':' :: '/' :: '/' :: u.netloc ++ normPath u.path

lemma normPath_shape (p : List Char) :
    normPath p = [] ∨ (normPath p).head? = some '/' := by
  by_cases h : p = [] ∨ p.head? = some '/'
  · rw [normPath, if_pos h]
    exact h
  · rw [normPath, if_neg h]
    simp

lemma normPath_idem (p : List Char) : normPath (normPath p) = normPath p := by
  rcases normPath_shape p with h | h
  · rw [normPath, if_pos (Or.inl h)]
  · rw [normPath, if_pos (Or.inr h)]

lemma takeWhile_append_all (p : Char → Bool) (l l' : List Char)
    (h : ∀ x ∈ l, p x = true) :
    (l ++ l').takeWhile p = l ++ l'.takeWhile p := by
  induction l with
  | nil => simp
  | cons a t ih =>
    have ha := h a (by simp)
    simp [List.takeWhile_cons, ha, ih (fun x hx => h x (by simp [hx]))]

lemma dropWhile_append_all (p : Char → Bool) (l l' : List Char)
    (h : ∀ x ∈ l, p x = true) :
    (l ++ l').dropWhile p = l'.dropWhile p := by
  induction l with
  | nil => simp
  | cons a t ih =>
    have ha := h a (by simp)
    simp [List.dropWhile_cons, ha, ih (fun x hx => h x (by simp [hx]))]

/-- Parsing an unparsed url recovers its components, with the path
normalised to start with a slash, provided the scheme holds no colon and
the netloc no slash. -/
lemma urlparseC_urlunparseC (u : UrlParts) (hs : ':' ∉ u.scheme)
    (hn : '/' ∉ u.netloc) :
    urlparseC (urlunparseC u) =
      { scheme := u.scheme, netloc := u.netloc, path := normPath u.path } := by
  obtain ⟨sch, nl, p⟩ := u
  simp only [urlunparseC] at *
  have hall : ∀ x ∈ sch, (fun c => decide (c ≠ ':')) x = true := by
    intro x hx
    simp only [decide_eq_true_eq]
    exact fun hxe => hs (hxe ▸ hx)
  have hnall : ∀ x ∈ nl, (fun c => decide (c ≠ '/')) x = true := by
    intro x hx
    simp only [decide_eq_true_eq]
    exact fun hxe => hn (hxe ▸ hx)
  have hrest : (sch ++ ':' :: '/' :: '/' :: (nl ++ normPath p)).dropWhile
      (fun c => c ≠ ':') = ':' :: '/' :: '/' :: (nl ++ normPath p) := by
    rw [dropWhile_append_all _ _ _ hall]
    simp [List.dropWhile_cons]
  have htake : (sch ++ ':' :: '/' :: '/' :: (nl ++ normPath p)).takeWhile
      (fun c => c ≠ ':') = sch := by
    rw [takeWhile_append_all _ _ _ hall]
    simp [List.takeWhile_cons]
  have hnet : (nl ++ normPath p).takeWhile (fun c => c ≠ '/') = nl := by
    rw [takeWhile_append_all _ _ _ hnall]
    rcases normPath_shape p with h | h
    · simp [h]
    · rcases hq : normPath p with _ | ⟨c, t⟩
      · simp
      · rw [hq] at h
        simp only [List.head?_cons, Option.some.injEq] at h
        simp [List.takeWhile_cons, h]
  have hpath : (nl ++ normPath p).dropWhile (fun c => c ≠ '/') = normPath p := by
    rw [dropWhile_append_all _ _ _ hnall]
    rcases normPath_shape p with h | h
    · simp [h]
    · rcases hq : normPath p with _ | ⟨c, t⟩
      · simp
      · rw [hq] at h
        simp only [List.head?_cons, Option.some.injEq] at h
        simp [List.dropWhile_cons, h]
  have htk : List.take 3 (':' :: '/' :: '/' :: (nl ++ normPath p)) = [':', '/', '/'] := rfl
  have hdr : List.drop 3 (':' :: '/' :: '/' :: (nl ++ normPath p)) = nl ++ normPath p := rfl
  rw [show sch ++ ':' :: '/' :: '/' :: nl ++ normPath p =
      sch ++ ':' :: '/' :: '/' :: (nl ++ normPath p) from by simp]
  unfold urlparseC
  rw [hrest, htk, if_pos rfl, htake, hdr, hnet, hpath]

/-- The scheme produced by parsing never contains a colon. -/
lemma urlparseC_scheme_no_colon (s : List Char) : ':' ∉ (urlparseC s).scheme := by
  unfold urlparseC
  split <;> intro hmem
  · have := List.mem_takeWhile_imp hmem
    simp at this
  · simp at hmem

/-- The netloc produced by parsing never contains a slash. -/
lemma urlparseC_netloc_no_slash (s : List Char) : '/' ∉ (urlparseC s).netloc := by
  unfold urlparseC
  split <;> intro hmem
  · have := List.mem_takeWhile_imp hmem
    simp at this
  · simp at hmem

/-! Embedding of `ApiProfile` and `ApiManager` (manager.py). -/

/-- Embeds a validated `Domain` catalog entry (manager.py lines 82-103):
hostname and public flag. -/
structure Domain where
  name : List Char
  public : Bool
deriving DecidableEq, Repr

/-- Embeds the `stems` entry of a validated `ApiProfileModel` (manager.py
line 142): the test and public segments and the affix policy, whose value
the validator restricts to `prefix` or `suffix`. -/
structure Stems where
  test : List Char
  public : List Char
  affix : List Char
deriving DecidableEq, Repr

/-- Embeds the parts of a validated `ApiProfileModel` consumed by url
construction: the base path, the `api` flag, the stems and the declared
auth type (`self.info["auth"]["type"]`, default netrc). -/
structure ProfileInfo where
  base : List Char
  api : Bool
  stems : Stems
  authType : List Char
deriving DecidableEq, Repr

/-- Embeds the mutable state of an `ApiProfile` instance: its name, the
validated info, `_all_domains` (the merged domain and mirror tables, an
ordered association list from domain key to `Domain`, always holding the
`local` key appended by `_get_domains`), the current `url`, the
`current_domain` and the computed `auth_type` (None when no authentication
is required). -/
structure ApiProfile where
  name : List Char
  info : ProfileInfo
  all_domains : List (List Char × Domain)
  url : List Char
  current_domain : Domain
  auth_type : Option (List Char)
deriving DecidableEq, Repr

/-- Embeds the ValueError raised by domain checks (the spec's
ConfigurationError). -/
inductive ApiErr
  | valueError (msg : String)
deriving DecidableEq, Repr

/-- Embeds the `check_domain` decorator (manager.py lines 109-134): the
domain must be a key of `_all_domains`; a port or ngrok id is only legal
for the `local` domain; the `local` domain requires a port or ngrok id.
A Python int port/ngrokid is truthy when set and nonzero, modelled by
`Option Nat` with `none` for absent. -/
def check_domain (prof : ApiProfile) (domain : List Char)
    (port ngrokid : Option Nat) : Option ApiErr :=
  if (prof.all_domains.lookup domain).isNone then
    some (ApiErr.valueError "Input domain not a valid domain or mirror for API profile")
  else if (port.isSome || ngrokid.isSome) && !(domain = "local".data : Bool) then
    some (ApiErr.valueError "Domain must be local if a port or ngrokid is set!")
  else if (domain = "local".data : Bool) && !(port.isSome || ngrokid.isSome) then
    some (ApiErr.valueError "A port or ngrokid must be specified when domain is local")
  else
    none

/-- Embeds `ApiProfile._create_local_domain` (manager.py lines 439-445): an
ngrok id wins over a port; otherwise the hostname of the profile's `local`
domain entry joined with the port (the source reads `self.domains["local"]`;
the key is looked up in the merged table here, where it is identical). -/
def create_local_domain (prof : ApiProfile) (port ngrokid : Option Nat) : List Char :=
  match ngrokid with
  | some n => (toString n).data ++ ".ngrok.io".data
  | none =>
    ((prof.all_domains.lookup "local".data).map (fun d => d.name)).getD [] ++
      ':' :: (toString (port.getD 0)).data

/-- The auth type computed by `ApiProfile._set_auth_type` (manager.py lines
250-255): a public current domain, or one whose printed name contains
"local", needs no authentication; otherwise the declared auth type
applies. -/
def compute_auth_type (prof : ApiProfile) : Option (List Char) :=
  if prof.current_domain.public = true ∨ "local".data <:+: prof.current_domain.name then
    none
  else
    some prof.info.authType

/-- Embeds `ApiProfile._set_auth_type`: stores the computed auth type on
the profile. -/
def set_auth_type (prof : ApiProfile) : ApiProfile :=
  { prof with auth_type := compute_auth_type prof }

@[simp] lemma set_auth_type_url (prof : ApiProfile) :
    (set_auth_type prof).url = prof.url := rfl

@[simp] lemma set_auth_type_all_domains (prof : ApiProfile) :
    (set_auth_type prof).all_domains = prof.all_domains := rfl

@[simp] lemma set_auth_type_current_domain (prof : ApiProfile) :
    (set_auth_type prof).current_domain = prof.current_domain := rfl

@[simp] lemma set_auth_type_info (prof : ApiProfile) :
    (set_auth_type prof).info = prof.info := rfl

lemma set_auth_type_idem (prof : ApiProfile) :
    set_auth_type (set_auth_type prof) = set_auth_type prof := rfl

/-- Embeds `ApiProfile.change_domain` (manager.py lines 447-486), guarded
by `check_domain`: parses the current url, replaces the scheme (http for
local, https otherwise) and the netloc (the local hostname or the chosen
domain's hostname) while keeping the path, unparses the result back into
`url`, resets `current_domain` from the merged table and recomputes the
auth type. -/
def change_domain (prof : ApiProfile) (domain : List Char)
    (port ngrokid : Option Nat) : Except ApiErr ApiProfile :=
  match check_domain prof domain port ngrokid with
  | some e => Except.error e
  | none =>
    let parsed := urlparseC prof.url
    let parts : UrlParts :=
      if domain = "local".data then
        { scheme := "http".data, netloc := create_local_domain prof port ngrokid,
          path := parsed.path }
      else
        { scheme := "https".data,
          netloc := ((prof.all_domains.lookup domain).map (fun d => d.name)).getD [],
          path := parsed.path }
    Except.ok (set_auth_type
      { prof with url := urlunparseC parts,
                  current_domain := (prof.all_domains.lookup domain).getD prof.current_domain })

/-- Embeds `ApiProfile._create_base_stem` (manager.py lines 488-507): start
from the base path; when the test or public flag is set, insert the test
stem first and then the public stem, each as a prefix or suffix segment
according to the affix policy; finally append the `api` segment when the
profile's api flag is set. -/
def create_base_stem (info : ProfileInfo) (test public : Bool) : List Char :=
  let path := info.base
  let path :=
    if test || public then
      let path :=
        if test then
          (if info.stems.affix = "prefix".data then info.stems.test ++ '/' :: path
           else path ++ '/' :: info.stems.test)
        else path
      let path :=
        if public then
          (if info.stems.affix = "prefix".data then info.stems.public ++ '/' :: path
           else path ++ '/' :: info.stems.public)
        else path
      path
    else path
  if info.api then path ++ "/api".data else path

/-- Embeds `ApiProfile.change_path` (manager.py lines 509-537): recompute
the base stem from the flags (no flags resets to the production base) and
replace only the path segment of the current url.  The Python defaults of
None for both flags are modelled as false, the only way they are used. -/
def change_path (prof : ApiProfile) (test public : Bool) : ApiProfile :=
  { prof with
    url := urlunparseC
      { scheme := (urlparseC prof.url).scheme, netloc := (urlparseC prof.url).netloc,
        path := create_base_stem prof.info test public } }

/-- Embeds the catalog state of `ApiManager` used by reverse lookup
(manager.py lines 556-559): the ordered api catalog (profile name to its
validated info) and the ordered domain catalog (domain key to `Domain`). -/
structure ApiManager where
  apis : List (List Char × ProfileInfo)
  domains : List (List Char × Domain)
deriving DecidableEq, Repr

/-- Embeds `ApiManager.identify_api_from_url` (manager.py lines 615-653):
rejects urls not starting with http, then scans the api catalog in order,
keeping the last profile whose base is a substring of the url path, and the
domain catalog in order, keeping the last key whose hostname equals the url
netloc exactly; unmatched slots stay None. -/
def identify_api_from_url (mgr : ApiManager) (url : List Char) :
    Except ApiErr (Option (List Char) × Option (List Char)) :=
  if "http".data <+: url then
    Except.ok
      (mgr.apis.foldl
        (fun acc kv => if kv.2.base <:+: (urlparseC url).path then some kv.1 else acc)
        none,
       mgr.domains.foldl
        (fun acc kv => if kv.2.name = (urlparseC url).netloc then some kv.1 else acc)
        none)
  else
    Except.error (ApiErr.valueError "Input url does not start with http.")

/-- Unparsing is blind to prior normalisation of the path. -/
lemma urlunparseC_normPath (s n p : List Char) :
    urlunparseC { scheme := s, netloc := n, path := normPath p } =
      urlunparseC { scheme := s, netloc := n, path := p } := by
  unfold urlunparseC
  simp [normPath_idem]

/-- Replacing the url and current domain of a profile by their own values
is the identity. -/
lemma ApiProfile_update_self (x : ApiProfile) (u : List Char) (c : Domain)
    (hu : u = x.url) (hc : c = x.current_domain) :
    ({ x with url := u, current_domain := c } : ApiProfile) = x := by
  subst hu hc
  rfl

/-- Stems used by the concrete API profiles in witnesses. -/
def wStems : Stems :=
  { test := "test".data, public := "public".data, affix := "prefix".data }

/-- Info of the concrete marvin-like API profile used in witnesses. -/
def wInfo : ProfileInfo :=
  { base := "marvin".data, api := false, stems := wStems, authType := "netrc".data }

/-- Modelled from the spec: concrete entries of the static domain catalog
(`etc/api_profiles.yml` is not under src); the spec fixes the local domain
hostname as `localhost` and uses sas/dr-style hosts for the others. -/
def wDomains : List (List Char × Domain) :=
  [("sas".data, { name := "sas.sdss.org".data, public := false }),
   ("dr15".data, { name := "dr15.sdss.org".data, public := true }),
   ("local".data, { name := "localhost".data, public := false })]

/-- Concrete API profile used in witnesses. -/
def wProf : ApiProfile :=
  { name := "marvin".data, info := wInfo, all_domains := wDomains,
    url := "https://sas.sdss.org/marvin".data,
    current_domain := { name := "sas.sdss.org".data, public := false },
    auth_type := some "netrc".data }

/-- C5 (counterexample): selecting the local domain while supplying BOTH a
port and a tunnel id passes `check_domain` - the guard only demands at
least one - and `change_domain` succeeds with the ngrok id winning, so the
claim that supplying both is rejected with a ConfigurationError is false. -/
theorem local_domain_both_args_counterexample :
    check_domain wProf "local".data (some 5000) (some 12345) = none ∧
    change_domain wProf "local".data (some 5000) (some 12345) =
      Except.ok
        { wProf with url := "http://12345.ngrok.io/marvin".data,
                     current_domain := { name := "localhost".data, public := false },
                     auth_type := none } :=
  ⟨rfl, rfl⟩

/-- C5 (amended): selecting local requires at least one of port and ngrok
id - with neither, a ConfigurationError-class ValueError is raised;
selecting a non-local domain with a port or ngrok id supplied raises too;
and selecting local with port 5000 yields scheme http and host
localhost:5000. -/
theorem local_domain_transition_rules (prof : ApiProfile)
    (hloc : prof.all_domains.lookup "local".data =
      some { name := "localhost".data, public := false }) :
    (change_domain prof "local".data none none =
        Except.error
          (ApiErr.valueError "A port or ngrokid must be specified when domain is local")) ∧
    (∀ domain port ngrokid, ¬ domain = "local".data →
      (port.isSome || ngrokid.isSome) = true →
      ∃ msg, change_domain prof domain port ngrokid =
        Except.error (ApiErr.valueError msg)) ∧
    (∃ p, change_domain prof "local".data (some 5000) none = Except.ok p ∧
      (urlparseC p.url).scheme = "http".data ∧
      (urlparseC p.url).netloc = "localhost:5000".data) := by
  refine ⟨?_, ?_, ?_⟩
  · unfold change_domain check_domain
    simp [hloc]
  · intro domain port ngrokid hd hpn
    by_cases hmem : (prof.all_domains.lookup domain).isNone
    · exact ⟨"Input domain not a valid domain or mirror for API profile",
        by unfold change_domain check_domain; simp [hmem]⟩
    · exact ⟨"Domain must be local if a port or ngrokid is set!",
        by unfold change_domain check_domain; simp [hmem, hpn, hd]⟩
  · have hls : create_local_domain prof (some 5000) none = "localhost:5000".data := by
      unfold create_local_domain
      rw [hloc]
      rfl
    have hch : check_domain prof "local".data (some 5000) none = none := by
      unfold check_domain
      simp [hloc]
    have hcd : change_domain prof "local".data (some 5000) none =
        Except.ok (set_auth_type
          { prof with
            url := urlunparseC
              { scheme := "http".data, netloc := "localhost:5000".data,
                path := (urlparseC prof.url).path },
            current_domain := { name := "localhost".data, public := false } }) := by
      unfold change_domain
      simp [hch, hls, hloc]
    have hparse : urlparseC (urlunparseC
        { scheme := "http".data, netloc := "localhost:5000".data,
          path := (urlparseC prof.url).path }) =
        { scheme := "http".data, netloc := "localhost:5000".data,
          path := normPath (urlparseC prof.url).path } :=
      urlparseC_urlunparseC _ (by show ':' ∉ "http".data; decide)
        (by show '/' ∉ "localhost:5000".data; decide)
    refine ⟨_, hcd, ?_, ?_⟩
    · simp [hparse]
    · simp [hparse]

/-- Witness for the amended C5 at concrete inputs: local with neither
argument errors; a non-local domain with a port errors. -/
theorem local_domain_transition_rules_witness :
    change_domain wProf "local".data none none =
      Except.error
        (ApiErr.valueError "A port or ngrokid must be specified when domain is local") ∧
    (∃ msg, change_domain wProf "sas".data (some 8080) none =
      Except.error (ApiErr.valueError msg)) :=
  ⟨(local_domain_transition_rules wProf rfl).1,
   (local_domain_transition_rules wProf rfl).2.1 "sas".data (some 8080) none
     (by decide) rfl⟩

/-- C9: changing to the same valid non-local domain twice yields exactly
the same profile state - in particular the same url - as changing once. -/
theorem change_domain_idempotent (prof p1 : ApiProfile) (domain : List Char) (d : Domain)
    (hd : prof.all_domains.lookup domain = some d) (hnl : ¬ domain = "local".data)
    (hslash : '/' ∉ d.name)
    (h1 : change_domain prof domain none none = Except.ok p1) :
    change_domain p1 domain none none = Except.ok p1 := by
  have hch : check_domain prof domain none none = none := by
    unfold check_domain
    simp [hd, hnl]
  unfold change_domain at h1
  simp only [hch, hd, if_neg hnl] at h1
  simp only [Option.map, Option.getD] at h1
  injection h1 with h1
  subst h1
  have hch2 : check_domain (set_auth_type
      { prof with
        url := urlunparseC
          { scheme := "https".data, netloc := d.name, path := (urlparseC prof.url).path },
        current_domain := d }) domain none none = none := by
    unfold check_domain
    simp [hd, hnl]
  have hpar : urlparseC (urlunparseC
      { scheme := "https".data, netloc := d.name,
        path := (urlparseC prof.url).path }) =
      { scheme := "https".data, netloc := d.name,
        path := normPath (urlparseC prof.url).path } :=
    urlparseC_urlunparseC _ (by show ':' ∉ "https".data; decide) hslash
  have hurl2 : urlunparseC
      { scheme := "https".data, netloc := d.name,
        path := normPath (urlparseC prof.url).path } =
      urlunparseC
      { scheme := "https".data, netloc := d.name,
        path := (urlparseC prof.url).path } :=
    urlunparseC_normPath _ _ _
  unfold change_domain
  simp only [hch2, hd, if_neg hnl, set_auth_type_all_domains, set_auth_type_url,
    set_auth_type_current_domain]
  simp only [Option.map, Option.getD]
  simp only [hpar, hurl2]
  rfl

/-- Result of the concrete first domain change used by the C9 witness. -/
def wProfDr15 : ApiProfile :=
  { name := "marvin".data, info := wInfo, all_domains := wDomains,
    url := "https://dr15.sdss.org/marvin".data,
    current_domain := { name := "dr15.sdss.org".data, public := true },
    auth_type := none }

/-- Witness for C9 at a concrete profile: the second identical domain
change is the identity on the already-changed profile. -/
theorem change_domain_idempotent_witness :
    change_domain wProfDr15 "dr15".data none none = Except.ok wProfDr15 :=
  change_domain_idempotent wProf wProfDr15 "dr15".data
    { name := "dr15.sdss.org".data, public := true } rfl (by decide) (by decide) rfl

/-- C6 (counterexample): with stems test and public under affix prefix,
composing both stems yields the path `public/test/<base>` - the public
segment, applied second, is prefixed in front of the test segment - and
not `test/public/<base>` as the claim states. -/
theorem stem_order_counterexample :
    create_base_stem wInfo true true = "public/test/marvin".data ∧
    create_base_stem wInfo true true ≠ "test/public/marvin".data := by
  constructor
  · rfl
  · decide

/-- C6 (amended): with affix prefix the test stem is applied first and the
public stem prefixed in front of it afterwards, so enabling both yields
path `public/test/<base>`; calling change_path with no flags resets the
path to `<base>` (no `/api` suffix for a profile whose api flag is off),
and the url's path segment reflects exactly these stems. -/
theorem stem_composition (prof : ApiProfile)
    (haffix : prof.info.stems.affix = "prefix".data) (hapi : prof.info.api = false)
    (hb0 : prof.info.base ≠ []) (hb1 : prof.info.base.head? ≠ some '/')
    (hp0 : prof.info.stems.public ≠ []) (hp1 : prof.info.stems.public.head? ≠ some '/') :
    create_base_stem prof.info true true =
      prof.info.stems.public ++ '/' :: (prof.info.stems.test ++ '/' :: prof.info.base) ∧
    create_base_stem prof.info false false = prof.info.base ∧
    (urlparseC (change_path prof false false).url).path = '/' :: prof.info.base ∧
    (urlparseC (change_path prof true true).url).path =
      '/' :: (prof.info.stems.public ++ '/' :: (prof.info.stems.test ++ '/' :: prof.info.base)) := by
  have h1 : create_base_stem prof.info true true =
      prof.info.stems.public ++ '/' :: (prof.info.stems.test ++ '/' :: prof.info.base) := by
    unfold create_base_stem
    simp [haffix, hapi]
  have h2 : create_base_stem prof.info false false = prof.info.base := by
    unfold create_base_stem
    simp [hapi]
  have hround : ∀ q : List Char, urlparseC (urlunparseC
      { scheme := (urlparseC prof.url).scheme, netloc := (urlparseC prof.url).netloc,
        path := q }) =
      { scheme := (urlparseC prof.url).scheme, netloc := (urlparseC prof.url).netloc,
        path := normPath q } := by
    intro q
    exact urlparseC_urlunparseC _ (urlparseC_scheme_no_colon prof.url)
      (urlparseC_netloc_no_slash prof.url)
  refine ⟨h1, h2, ?_, ?_⟩
  · unfold change_path
    simp only [h2, hround]
    rw [normPath, if_neg]
    simp [hb0, hb1]
  · unfold change_path
    simp only [h1, hround]
    rw [normPath, if_neg]
    rcases hpc : prof.info.stems.public with _ | ⟨c, t⟩
    · exact absurd hpc hp0
    · rw [hpc] at hp1
      simp only [List.cons_append, List.head?_cons]
      intro hcon
      rcases hcon with hcon | hcon
      · simp at hcon
      · exact hp1 (by simpa using hcon)

/-- Witness for the amended C6 at the concrete marvin-like profile. -/
theorem stem_composition_witness :
    create_base_stem wProf.info true true =
      wProf.info.stems.public ++ '/' :: (wProf.info.stems.test ++ '/' :: wProf.info.base) ∧
    create_base_stem wProf.info false false = wProf.info.base ∧
    (urlparseC (change_path wProf false false).url).path = '/' :: wProf.info.base ∧
    (urlparseC (change_path wProf true true).url).path =
      '/' :: (wProf.info.stems.public ++ '/' :: (wProf.info.stems.test ++ '/' :: wProf.info.base)) :=
  stem_composition wProf rfl rfl (by decide) (by decide) (by decide) (by decide)

/-- Last-match-wins lookup: the image of the last list entry satisfying the
predicate, scanning left to right with override. -/
def lastMatch {α β : Type} (P : α → Prop) [DecidablePred P] (f : α → β) :
    List α → Option β
  | [] => none
  | x :: xs =>
    match lastMatch P f xs with
    | some y => some y
    | none => if P x then some (f x) else none

/-- A foldl that overrides its accumulator on every match computes the last
match. -/
lemma foldl_override_eq_lastMatch {α β : Type} (P : α → Prop) [DecidablePred P]
    (f : α → β) (l : List α) (acc : Option β) :
    l.foldl (fun a x => if P x then some (f x) else a) acc =
      match lastMatch P f l with
      | some y => some y
      | none => acc := by
  induction l generalizing acc with
  | nil => rfl
  | cons x xs ih =>
    rw [List.foldl_cons, ih]
    cases h : lastMatch P f xs <;> by_cases hp : P x <;> simp [lastMatch, h, hp]

lemma match_none_collapse {β : Type} (o : Option β) :
    (match o with | some y => some y | none => none) = o := by
  cases o <;> rfl

/-- Catalog for the C7 counterexample: the profile with the longer base
comes first in catalog order, one with a shorter contained base last. -/
def cMgr : ApiManager :=
  { apis :=
      [("long".data,
        { base := "alpha/api".data, api := true, stems := wStems,
          authType := "netrc".data }),
       ("short".data,
        { base := "alpha".data, api := false, stems := wStems,
          authType := "netrc".data })],
    domains := [("sas".data, { name := "sas.sdss.org".data, public := false })] }

/-- Url whose path contains both bases of `cMgr`. -/
def cUrl : List Char := "https://sas.sdss.org/alpha/api/info".data

/-- Url on a known domain whose path matches no service of `cMgr`. -/
def cUrl2 : List Char := "https://sas.sdss.org/other/path".data

/-- C7 (counterexample): both bases are contained in the url path and the
longer one belongs to profile long, yet reverse lookup returns short - the
last catalog entry - so matching is not by longest base containment; and
for a url matching no service the service slot is None while the domain
slot is still filled, so the result is not the (nil, nil) pair the claim
describes. -/
theorem reverse_lookup_counterexample :
    identify_api_from_url cMgr cUrl = Except.ok (some "short".data, some "sas".data) ∧
    "alpha/api".data <:+: (urlparseC cUrl).path ∧
    ("alpha".data).length < ("alpha/api".data).length ∧
    identify_api_from_url cMgr cUrl2 = Except.ok (none, some "sas".data) := by
  refine ⟨rfl, by decide, by decide, rfl⟩

/-- C7 (amended): for every url starting with http, reverse lookup succeeds
and returns, independently, the last api catalog entry whose base is a
substring of the url path (catalog order, not longest match) and the last
domain catalog entry whose hostname equals the url netloc exactly; an
unmatched slot is None, with no error raised. -/
theorem reverse_lookup_last_match (mgr : ApiManager) (url : List Char)
    (hhttp : "http".data <+: url) :
    identify_api_from_url mgr url =
      Except.ok
        (lastMatch (fun kv : List Char × ProfileInfo => kv.2.base <:+: (urlparseC url).path)
          (fun kv => kv.1) mgr.apis,
         lastMatch (fun kv : List Char × Domain => kv.2.name = (urlparseC url).netloc)
          (fun kv => kv.1) mgr.domains) := by
  unfold identify_api_from_url
  rw [if_pos hhttp, foldl_override_eq_lastMatch, foldl_override_eq_lastMatch,
    match_none_collapse, match_none_collapse]

/-- Witness for the amended C7 at the concrete catalog and url. -/
theorem reverse_lookup_last_match_witness :
    identify_api_from_url cMgr cUrl =
      Except.ok
        (lastMatch (fun kv : List Char × ProfileInfo => kv.2.base <:+: (urlparseC cUrl).path)
          (fun kv => kv.1) cMgr.apis,
         lastMatch (fun kv : List Char × Domain => kv.2.name = (urlparseC cUrl).netloc)
          (fun kv => kv.1) cMgr.domains) :=
  reverse_lookup_last_match cMgr cUrl (by decide)

/-! Embedding of the path construction contract of
`sdss_brain/mixins/access.py` (AccessMixIn): `check_access_params` and
`get_full_path`. -/

/-- Embeds the AccessMixIn instance state consulted by `get_full_path`:
the `path_name` template name, the `path_params` keyword dictionary (an
ordered association list whose values model Python None as `none`), and
the `filename` attribute.  A `none` dictionary models the attribute being
None. -/
structure AccessState where
  path_name : Option String
  path_params : Option (List (String × Option String))
  filename : Option String
deriving DecidableEq, Repr

/-- Warnings emitted by path construction: the not-all-params-set warning
of `check_access_params` and the best-effort warning wrapping an
`sdss_access` failure in `get_full_path`. -/
inductive AccessWarning
  | paramsNotSet
  | accessFailed (msg : String)
deriving DecidableEq, Repr

/-- Outcome of the external `sdss_access` full/url call: a constructed path
(possibly None), a TypeError from bad inputs, or any other exception. -/
inductive FullOutcome
  | ok (path : Option String)
  | typeErr (msg : String)
  | otherErr (msg : String)
deriving DecidableEq, Repr

/-- Environment for `get_full_path`: the behaviour of the external
`sdss_access` template resolver on this call, and the catalog of template
names it knows. -/
structure AccessEnv where
  templates : List String
  fullResult : FullOutcome

/-- Embeds Python `str` on an optional value: None prints as "None". -/
def pyStr : Option String → String
  | none => "None"
  | some s => s

/-- Embeds Python truthiness of a parameter value: None and the empty
string are falsy. -/
def pyTruthy : Option String → Bool
  | none => false
  | some s => !s.isEmpty

/-- Modelled from the spec: validation that the template name is known to
the path-template resolver.  The assertion is not under src (only the
repository's test expecting AssertionError "must be defined in the path
templates" is); the spec states fullPath fails with ConfigurationError
when templateName is unknown, modelled as a membership check against the
resolver's template catalog. -/
def check_template_name (templates : List String) (name : String) : Option MMAErr :=
  if name ∈ templates then none
  else some (MMAErr.assertionError (name ++ " must be defined in the path templates"))

/-- Embeds the `check_access_params` decorator (access.py lines 75-98),
together with the spec-modelled template-name validation: with force_file
the checks are skipped; a missing or falsy `path_name` or `path_params`
is an assertion failure; when no filename is set and not every parameter
value is truthy, a warning is emitted and every value is coerced through
`str` (None becomes the string "None") so construction can proceed
best-effort. -/
def check_access_params (templates : List String) (st : AccessState)
    (force_file : Bool) : Except MMAErr (AccessState × List AccessWarning) :=
  if force_file then
    Except.ok (st, [])
  else
    match st.path_name with
    | none => Except.error (MMAErr.assertionError "the path_name attribute cannot be None")
    | some nm =>
      match check_template_name templates nm with
      | some e => Except.error e
      | none =>
        match st.path_params with
        | none =>
          Except.error (MMAErr.assertionError "the path_params attribute cannot be None")
        | some ps =>
          if ps = [] then
            Except.error (MMAErr.assertionError "the path_params attribute cannot be None")
          else if st.filename.isNone && !(ps.all (fun kv => pyTruthy kv.2)) then
            Except.ok
              ({ st with path_params := some (ps.map (fun kv => (kv.1, some (pyStr kv.2)))) },
               [AccessWarning.paramsNotSet])
          else
            Except.ok (st, [])

/-- Embeds `AccessMixIn.get_full_path` (access.py lines 167-201), guarded
by `check_access_params`: with force_file the stored filename is returned
as is; otherwise the external resolver is consulted - a TypeError is
wrapped and re-raised as BrainError, any other exception is reduced to a
warning with a None path returned, and a successful construction returns
the (possibly None) path.  The url flag only selects the remote-rooted
template and does not change the control flow. -/
def get_full_path (env : AccessEnv) (st : AccessState) (url force_file : Bool) :
    Except MMAErr (AccessState × Option String × List AccessWarning) :=
  match check_access_params env.templates st force_file with
  | Except.error e => Except.error e
  | Except.ok (st1, ws) =>
    if force_file then
      Except.ok (st1, st1.filename, ws)
    else
      match env.fullResult with
      | FullOutcome.ok p => Except.ok (st1, p, ws)
      | FullOutcome.typeErr m =>
        Except.error (MMAErr.brainError ("Bad input type for sdss_access: " ++ m))
      | FullOutcome.otherErr m =>
        Except.ok (st1, none, ws ++ [AccessWarning.accessFailed m])

/-- C8: get_full_path fails hard - before consulting the resolver, for any
resolver behaviour - when the template name is missing or unknown, while a
missing parameter value only produces the recoverable paramsNotSet warning
and a best-effort construction with every None value substituted by the
string "None"; the result is then whatever the resolver returns, for the
caller to validate. -/
theorem full_path_failure_modes (env : AccessEnv) (st : AccessState) :
    (st.path_name = none →
      get_full_path env st false false =
        Except.error (MMAErr.assertionError "the path_name attribute cannot be None")) ∧
    (∀ nm, st.path_name = some nm → nm ∉ env.templates →
      get_full_path env st false false =
        Except.error
          (MMAErr.assertionError (nm ++ " must be defined in the path templates"))) ∧
    (∀ nm ps p, st.path_name = some nm → nm ∈ env.templates →
      st.path_params = some ps → ps ≠ [] → st.filename = none →
      ps.all (fun kv => pyTruthy kv.2) = false →
      env.fullResult = FullOutcome.ok p →
      get_full_path env st false false =
        Except.ok
          ({ st with path_params := some (ps.map (fun kv => (kv.1, some (pyStr kv.2)))) },
           p, [AccessWarning.paramsNotSet])) := by
  refine ⟨?_, ?_, ?_⟩
  · intro hn
    unfold get_full_path check_access_params
    simp [hn]
  · intro nm hn hmem
    unfold get_full_path check_access_params check_template_name
    simp [hn, hmem]
  · intro nm ps p hn hmem hps hne hf hall hres
    unfold get_full_path check_access_params check_template_name
    simp [hn, hmem, hps, hne, hf, hall, hres]

/-- Concrete access state for the C8 witness: a known template with one
missing parameter value. -/
def wAccessSt : AccessState :=
  { path_name := some "toy", path_params := some [("object", some "A"), ("ver", none)],
    filename := none }

/-- Concrete access state for the C8 witness with an unknown template. -/
def wAccessStBad : AccessState :=
  { path_name := some "nope", path_params := some [("object", some "A")],
    filename := none }

/-- Concrete access environment for the C8 witness. -/
def wAccessEnv : AccessEnv :=
  { templates := ["toy"], fullResult := FullOutcome.ok (some "/sas/toy_A.txt") }

/-- Witness for C8 at concrete inputs: the unknown-template hard failure
and the missing-parameter best-effort warning path. -/
theorem full_path_failure_modes_witness :
    get_full_path wAccessEnv wAccessStBad false false =
      Except.error
        (MMAErr.assertionError ("nope" ++ " must be defined in the path templates")) ∧
    get_full_path wAccessEnv wAccessSt false false =
      Except.ok
        ({ wAccessSt with
            path_params := some
              ([("object", some "A"), ("ver", none)].map
                (fun kv => (kv.1, some (pyStr kv.2)))) },
         some "/sas/toy_A.txt", [AccessWarning.paramsNotSet]) :=
  ⟨(full_path_failure_modes wAccessEnv wAccessStBad).2.1 "nope" rfl (by decide),
   (full_path_failure_modes wAccessEnv wAccessSt).2.2 "toy"
     [("object", some "A"), ("ver", none)] (some "/sas/toy_A.txt") rfl (by decide)
     rfl (by decide) rfl (by decide) rfl⟩

end SdssBrain
